import Mathlib

/-!
Verification of the lumix-ai tool layer against its specification.

This file contains a shallow embedding, in Lean 4, of the data model and the
operations of the lumix-ai backend (a tutoring assistant whose tools read and
write DynamoDB tables, call a Bedrock model, and upload files to S3), together
with theorems settling the specification claims about those operations.

Modelling conventions, applied uniformly:
- A DynamoDB table is a list of records in scan order.  `put_item` replaces
  the record carrying the same key when one exists and appends otherwise
  (`putByKey`).
- External effects (the Bedrock model call, the S3 upload, the success of a
  `put_item`, uuid-derived ids, timestamps) are inputs of the embedded
  functions: each embedded operation takes an "effects" record describing the
  outcome of each external call it performs, and returns its structured result
  together with the updated stores.
- Python dictionaries returned by the tools are embedded as structures whose
  fields are `Option`-typed when the corresponding key is absent on some
  return path.
- JSON values produced by `json.loads` on model output are embedded by the
  inductive type `Json`; a model interaction that raises, or whose output does
  not parse, is a distinguished constructor of the per-operation model-outcome
  type.
-/

namespace Lumix

/-! ## Basic string helpers -/

/-- Embeds Python truthiness of an optional string (`if topic:`):
`None` and the empty string are falsy. -/
def truthy : Option String → Bool
  | none => false
  | some s => s ≠ ""

/-- Substring test on character lists: `subSeq s pat` is true when `pat`
occurs contiguously inside `s`. -/
def subSeq : List Char → List Char → Bool
  | s, pat =>
    match s with
    | [] => pat.isEmpty
    | _ :: t => pat.isPrefixOf s || subSeq t pat

/-- Embeds the DynamoDB `contains(topic, :topic)` filter-expression function
on strings: case-sensitive substring containment. -/
def strContains (s pat : String) : Bool :=
  subSeq s.toList pat.toList

/-- Embeds Python `str.lower()` for the ASCII strings used as difficulty
labels ("Easy", "Medium", "Hard", ...). -/
def strLower (s : String) : String := ⟨s.data.map Char.toLower⟩

/-- Embeds Python `x or default` for an optional string: `None` and `""` are
replaced by the default. -/
def pyOr (o : Option String) (dflt : String) : String :=
  match o with
  | some s => if s = "" then dflt else s
  | none => dflt

/-! ## The question store -/

/-- A record of the `lumix-questions` table, with the attributes written by
`generate_questions` (src/tools/question_tools.py, lines 339-354).  Records
already in the table are modelled with the same attribute set; the code reads
them through `q.get(..., default)`, which the total fields embed. -/
structure Question where
  question_id : String
  text : String
  topic : String
  difficulty : String
  source : String
  explanation : String
  teaching_tips : String
  answer : String
  times_used : Nat
  success_rate : Nat
  subject_area : String
  question_type : String
  created_at : String
  generated_by : String
deriving Repr, DecidableEq

/-- DynamoDB `put_item` against a table modelled as a list of records in scan
order: if a record with the same key exists it is replaced in place, otherwise
the item is appended. -/
def putByKey {α : Type} (key : α → String) (store : List α) (item : α) :
    List α :=
  if store.any fun r => key r == key item then
    store.map fun r => if key r == key item then item else r
  else store ++ [item]

/-- Embeds `search_questions` from src/utils/dynamodb_client.py (lines
73-101).  DynamoDB evaluates `Limit` before the filter expression, so the
filter runs over the first `limit` records of the table in scan order.  A
`None` or empty-string argument adds no filter (Python `if topic:`). -/
def search_questions (store : List Question) (topic difficulty : Option String)
    (limit : Nat) : List Question :=
  (store.take limit).filter fun q =>
    (if truthy topic then strContains q.topic (topic.getD "") else true) &&
    (if truthy difficulty then q.difficulty == difficulty.getD "" else true)

/-! ## Claim C6: search results satisfy the requested filters -/

/-- C6.  For every combination of optional topic and difficulty filters passed
to `search_questions`, every record in the returned list has a difficulty
equal to the requested difficulty when one is specified, and a topic string
containing the requested topic as a case-sensitive substring when one is
specified.  ("Specified" is the code's own notion: a present, non-empty
string; `search_questions` treats `None` and `""` alike as no filter.) -/
theorem search_questions_filters_sound (store : List Question)
    (topic difficulty : Option String) (limit : Nat) (q : Question)
    (hq : q ∈ search_questions store topic difficulty limit) :
    (∀ t, topic = some t → t ≠ "" → strContains q.topic t = true) ∧
    (∀ d, difficulty = some d → d ≠ "" → q.difficulty = d) := by
  rw [search_questions, List.mem_filter] at hq
  obtain ⟨-, hpred⟩ := hq
  rw [Bool.and_eq_true] at hpred
  obtain ⟨h1, h2⟩ := hpred
  constructor
  · intro t ht hne
    subst ht
    simpa [truthy, hne] using h1
  · intro d hd hne
    subst hd
    simp only [truthy, Option.getD_some] at h2
    rw [if_pos (by simpa using hne)] at h2
    exact eq_of_beq h2

/-- A concrete stored question used to instantiate theorems. -/
def seedQuestion : Question :=
  { question_id := "q1", text := "Simplify 1/2 + 1/4", topic := "Fractions",
    difficulty := "Easy", source := "database", explanation := "Add with a common denominator",
    teaching_tips := "Use pie diagrams", answer := "3/4", times_used := 0,
    success_rate := 0, subject_area := "Mathematics", question_type := "short_answer",
    created_at := "2024-01-01T00:00:00+00:00", generated_by := "seed" }

/-- Witness for C6 at a concrete store and concrete filters. -/
theorem search_questions_filters_sound_witness :
    strContains seedQuestion.topic "Frac" = true ∧ seedQuestion.difficulty = "Easy" := by
  have h := search_questions_filters_sound [seedQuestion] (some "Frac") (some "Easy") 50
    seedQuestion (by decide)
  exact ⟨h.1 "Frac" rfl (by decide), h.2 "Easy" rfl (by decide)⟩

/-! ## generate_questions (src/tools/question_tools.py, lines 143-390) -/

/-- Embeds the `difficulty_map` dict lookup with default "Medium"
(question_tools.py lines 190-195 and 226-231). -/
def difficultyMap (d : String) : String :=
  if d = "beginner" then "Easy"
  else if d = "intermediate" then "Medium"
  else if d = "advanced" then "Hard"
  else "Medium"

/-- A question dict parsed from the model's JSON array in `generate_questions`.
The code reads each entry through `q.get(key, '')`; the total string fields
embed that. -/
structure GenQ where
  question_text : String
  answer : String
  explanation : String
  teaching_tips : String
deriving Repr, DecidableEq

/-- Outcome of the model interaction in `generate_questions`: the
`bedrock_client.converse` call raises (`err`, caught by the outer handler
at lines 384-390), or the returned text fails to parse as a JSON list
(`parseFail`, lines 313-325), or it parses to a list of question dicts
(`ok`). -/
inductive GenModel where
  | err (msg : String)
  | parseFail (msg : String) (raw : String)
  | ok (qs : List GenQ)

/-- External-call outcomes consumed by one run of `generate_questions`:
the model outcome, the uuid-derived ids handed out to stored questions in
order, and the `datetime.now` timestamp. -/
structure GenEffects where
  model : GenModel
  mkId : Nat → String
  now : String

/-- The item stored by `generate_questions` for one generated question
(question_tools.py lines 339-354). -/
def mkStoredQuestion (qid : String) (g : GenQ)
    (normalizedTopic internalDifficulty : String) (subjectArea : Option String)
    (questionType nowTs : String) : Question :=
  { question_id := qid
    text := g.question_text
    topic := normalizedTopic
    difficulty := internalDifficulty
    source := "AI Generated"
    explanation := g.explanation
    teaching_tips := g.teaching_tips
    answer := g.answer
    times_used := 0
    success_rate := 0
    subject_area := pyOr subjectArea "General"
    question_type := questionType
    created_at := nowTs
    generated_by := "lumix-ai" }

/-- The storage loop of `generate_questions` (lines 335-357): for each parsed
question, build an item with a fresh uuid-derived id, `put_item` it, and
append it to the `stored_questions` list.  Returns the updated table and the
stored list.  The counter `i` indexes into the id supply. -/
def storeLoop (eff : GenEffects) (normalizedTopic internalDifficulty : String)
    (subjectArea : Option String) (questionType : String) :
    List Question → List GenQ → Nat → List Question × List Question
  | store, [], _ => (store, [])
  | store, g :: gs, i =>
    let item := mkStoredQuestion (eff.mkId i) g normalizedTopic
      internalDifficulty subjectArea questionType eff.now
    let store1 := putByKey Question.question_id store item
    let rest := storeLoop eff normalizedTopic internalDifficulty subjectArea
      questionType store1 gs (i + 1)
    (rest.1, item :: rest.2)

/-- The dict returned by `generate_questions`.  Keys absent on a return path
are `none` (the validation-failure return has no `count`, `message`, or
`source`; the parse-failure return additionally carries `raw_response` and
`suggestion` fields that no other path has, omitted here). -/
structure GenResult where
  success : Bool
  error : Option String
  questions : List Question
  count : Option Nat
  message : Option String
  source : Option String
deriving Repr, DecidableEq

/-- The `existing_questions` scan of `generate_questions` (line 187):
topic-filtered search over the first 50 records, no difficulty filter. -/
def gqExisting (store : List Question) (topic : String) : List Question :=
  search_questions store (some topic) none 50

/-- The `matching_questions` list of `generate_questions` (lines 198-201):
the scanned records whose difficulty equals the mapped difficulty,
compared case-insensitively. -/
def gqMatching (store : List Question) (topic difficulty_level : String) :
    List Question :=
  (gqExisting store topic).filter fun q =>
    strLower q.difficulty == strLower (difficultyMap difficulty_level)

/-- The `normalized_topic` of `generate_questions` (lines 327-332): the topic
of the first scanned existing question when any exists, else the requested
topic as given. -/
def gqNormalizedTopic (store : List Question) (topic : String) : String :=
  match gqExisting store topic with
  | [] => topic
  | q :: _ => q.topic

/-- Embeds `generate_questions` (src/tools/question_tools.py, lines 143-390).
Returns the structured result and the updated questions table.

Control flow, in source order: validate `question_count` (lines 179-184);
scan for existing questions with the topic filter and limit 50 (line 187);
filter those by the mapped difficulty, case-insensitively (lines 195-201);
return them directly when enough exist (lines 204-216); otherwise call the
model, handle a raised call or unparseable output, normalize the topic from
the first scanned record, store `generated[:questions_needed]` with fresh
ids, and return existing ++ stored (lines 219-382).  Note line 223 rebinds
`question_count` to `questions_needed` when some matches exist. -/
def generate_questions (store : List Question) (eff : GenEffects)
    (topic difficulty_level : String) (question_count : Int)
    (question_type : String) (subject_area : Option String) :
    GenResult × List Question :=
  if question_count < 1 ∨ question_count > 20 then
    ({ success := false
       error := some "question_count must be between 1 and 20"
       questions := [], count := none, message := none, source := none }, store)
  else
    let internal_difficulty := difficultyMap difficulty_level
    let matching_questions := gqMatching store topic difficulty_level
    if (matching_questions.length : Int) ≥ question_count then
      ({ success := true
         error := none
         questions := matching_questions.take question_count.toNat
         count := some question_count.toNat
         message := some ("Found " ++ toString question_count.toNat ++
           " existing questions on '" ++ topic ++ "' - no need to generate new ones")
         source := some "database" }, store)
    else
      let questions_needed := question_count.toNat - matching_questions.length
      let question_count2 :=
        if questions_needed > 0 ∧ matching_questions.length > 0 then
          questions_needed
        else question_count.toNat
      match eff.model with
      | GenModel.err msg =>
          ({ success := false, error := some msg, questions := [],
             count := some 0, message := none, source := none }, store)
      | GenModel.parseFail msg _raw =>
          ({ success := false
             error := some ("Failed to parse AI-generated questions: " ++ msg)
             questions := [], count := none, message := none, source := none }, store)
      | GenModel.ok generated_questions =>
          let normalized_topic := gqNormalizedTopic store topic
          let slice_len :=
            if questions_needed > 0 then questions_needed else question_count2
          let looped := storeLoop eff normalized_topic internal_difficulty
            subject_area question_type store (generated_questions.take slice_len) 0
          let stored_questions := looped.2
          let all_questions := matching_questions ++ stored_questions
          let message_parts : List String :=
            (if matching_questions.length > 0 then
              ["Found " ++ toString matching_questions.length ++ " existing questions"]
             else []) ++
            (if stored_questions.length > 0 then
              ["generated " ++ toString stored_questions.length ++ " new questions"]
             else [])
          ({ success := true
             error := none
             questions := if questions_needed = 0 then
                 all_questions.take question_count2
               else all_questions
             count := some all_questions.length
             message := some (String.intercalate " and " message_parts ++
               " on '" ++ normalized_topic ++ "'")
             source := some (if matching_questions.length > 0 ∧
                 stored_questions.length > 0 then "mixed"
               else if stored_questions.length = 0 then "database"
               else "generated") }, looped.1)

/-! ### Helper lemmas about putByKey and the storage loop -/

lemma putByKey_of_fresh {α : Type} (key : α → String) (store : List α)
    (item : α) (h : ∀ r ∈ store, key r ≠ key item) :
    putByKey key store item = store ++ [item] := by
  have hfalse : store.any (fun r => key r == key item) = false := by
    rw [List.any_eq_false]
    intro r hr
    simpa using h r hr
  rw [putByKey, hfalse]
  simp

lemma mem_putByKey {α : Type} (key : α → String) (store : List α) (item x : α)
    (hx : x ∈ putByKey key store item) : x ∈ store ∨ x = item := by
  rw [putByKey] at hx
  split at hx
  · rcases List.mem_map.mp hx with ⟨r, hr, heq⟩
    by_cases hk : (key r == key item) = true
    · right; rw [if_pos hk] at heq; exact heq.symm
    · left; rw [if_neg hk] at heq; exact heq ▸ hr
  · rcases List.mem_append.mp hx with h | h
    · exact Or.inl h
    · exact Or.inr (List.mem_singleton.mp h)

lemma any_key_putByKey {α : Type} (key : α → String) (store : List α)
    (item : α) :
    (putByKey key store item).any (fun r => key r == key item) = true := by
  rw [putByKey]
  split
  · rename_i hany
    rw [List.any_eq_true] at hany ⊢
    rcases hany with ⟨r, hr, hk⟩
    exact ⟨item, List.mem_map.mpr ⟨r, hr, if_pos hk⟩, beq_self_eq_true _⟩
  · rw [List.any_eq_true]
    exact ⟨item, List.mem_append_right _ (List.mem_singleton.mpr rfl),
      beq_self_eq_true _⟩

/-- When the id supply is injective and its ids are fresh for the store, the
storage loop appends its items to the table, and stores one item per parsed
question. -/
lemma storeLoop_spec (eff : GenEffects) (nt idf : String) (sa : Option String)
    (qt : String) (hinj : ∀ m n, eff.mkId m = eff.mkId n → m = n)
    (gen : List GenQ) :
    ∀ (store : List Question) (i : Nat),
      (∀ n, i ≤ n → ∀ r ∈ store, r.question_id ≠ eff.mkId n) →
      (storeLoop eff nt idf sa qt store gen i).1 =
        store ++ (storeLoop eff nt idf sa qt store gen i).2 ∧
      (storeLoop eff nt idf sa qt store gen i).2.length = gen.length := by
  induction gen with
  | nil => intro store i _; simp [storeLoop]
  | cons g gs ih =>
    intro store i hfresh
    have hput : putByKey Question.question_id store
        (mkStoredQuestion (eff.mkId i) g nt idf sa qt eff.now) =
        store ++ [mkStoredQuestion (eff.mkId i) g nt idf sa qt eff.now] := by
      refine putByKey_of_fresh _ _ _ (fun r hr => ?_)
      simpa [mkStoredQuestion] using hfresh i le_rfl r hr
    have hfresh' : ∀ n, i + 1 ≤ n →
        ∀ r ∈ store ++ [mkStoredQuestion (eff.mkId i) g nt idf sa qt eff.now],
        r.question_id ≠ eff.mkId n := by
      intro n hn r hr
      rcases List.mem_append.mp hr with h | h
      · exact hfresh n (Nat.le_of_succ_le hn) r h
      · rw [List.mem_singleton.mp h]
        simp only [mkStoredQuestion]
        intro heq
        exact absurd (hinj i n heq) (by omega)
    have ihh := ih (store ++ [mkStoredQuestion (eff.mkId i) g nt idf sa qt eff.now])
      (i + 1) hfresh'
    simp only [storeLoop, hput]
    constructor
    · rw [ihh.1, List.append_assoc, List.singleton_append]
    · simp [ihh.2]

/-- Every item produced by the storage loop carries source "AI Generated". -/
lemma storeLoop_source (eff : GenEffects) (nt idf : String)
    (sa : Option String) (qt : String) (gen : List GenQ) :
    ∀ (store : List Question) (i : Nat) (q : Question),
      q ∈ (storeLoop eff nt idf sa qt store gen i).2 →
      q.source = "AI Generated" := by
  induction gen with
  | nil => intro store i q hq; simp [storeLoop] at hq
  | cons g gs ih =>
    intro store i q hq
    simp only [storeLoop] at hq
    rcases List.mem_cons.mp hq with h | h
    · rw [h]; rfl
    · exact ih _ _ q h

/-! ### Branch characterizations of generate_questions -/

lemma generate_questions_invalid (store : List Question) (eff : GenEffects)
    (topic difficulty_level : String) (question_count : Int)
    (question_type : String) (subject_area : Option String)
    (hv : question_count < 1 ∨ question_count > 20) :
    generate_questions store eff topic difficulty_level question_count
      question_type subject_area =
      ({ success := false
         error := some "question_count must be between 1 and 20"
         questions := [], count := none, message := none, source := none },
        store) := by
  rw [generate_questions, if_pos hv]

lemma generate_questions_enough (store : List Question) (eff : GenEffects)
    (topic difficulty_level : String) (question_count : Int)
    (question_type : String) (subject_area : Option String)
    (hv : ¬(question_count < 1 ∨ question_count > 20))
    (hge : ((gqMatching store topic difficulty_level).length : Int) ≥
      question_count) :
    generate_questions store eff topic difficulty_level question_count
      question_type subject_area =
      ({ success := true
         error := none
         questions := (gqMatching store topic difficulty_level).take
           question_count.toNat
         count := some question_count.toNat
         message := some ("Found " ++ toString question_count.toNat ++
           " existing questions on '" ++ topic ++
           "' - no need to generate new ones")
         source := some "database" }, store) := by
  simp only [generate_questions]
  rw [if_neg hv, if_pos hge]

lemma generate_questions_model_err (store : List Question) (eff : GenEffects)
    (topic difficulty_level : String) (question_count : Int)
    (question_type : String) (subject_area : Option String) (msg : String)
    (hv : ¬(question_count < 1 ∨ question_count > 20))
    (hlt : ((gqMatching store topic difficulty_level).length : Int) <
      question_count)
    (hm : eff.model = GenModel.err msg) :
    generate_questions store eff topic difficulty_level question_count
      question_type subject_area =
      ({ success := false, error := some msg, questions := [],
         count := some 0, message := none, source := none }, store) := by
  simp only [generate_questions]
  rw [if_neg hv, if_neg (not_le.mpr hlt), hm]

lemma generate_questions_parse_fail (store : List Question) (eff : GenEffects)
    (topic difficulty_level : String) (question_count : Int)
    (question_type : String) (subject_area : Option String)
    (msg raw : String)
    (hv : ¬(question_count < 1 ∨ question_count > 20))
    (hlt : ((gqMatching store topic difficulty_level).length : Int) <
      question_count)
    (hm : eff.model = GenModel.parseFail msg raw) :
    generate_questions store eff topic difficulty_level question_count
      question_type subject_area =
      ({ success := false
         error := some ("Failed to parse AI-generated questions: " ++ msg)
         questions := [], count := none, message := none, source := none },
        store) := by
  simp only [generate_questions]
  rw [if_neg hv, if_neg (not_le.mpr hlt), hm]

/-- The storage loop stores one item per parsed question, regardless of the
put outcomes. -/
lemma storeLoop_length (eff : GenEffects) (nt idf : String)
    (sa : Option String) (qt : String) (gen : List GenQ) :
    ∀ (store : List Question) (i : Nat),
      (storeLoop eff nt idf sa qt store gen i).2.length = gen.length := by
  induction gen with
  | nil => intro store i; simp [storeLoop]
  | cons g gs ih => intro store i; simp [storeLoop, ih]

/-! ## Claim C10: question_count validation -/

/-- C10.  For every call to `generate_questions` with `question_count < 1` or
`question_count > 20`, the call returns success `false` with the error message
"question_count must be between 1 and 20" and an empty questions list, and the
questions store is left completely unchanged. -/
theorem generate_questions_count_validation (store : List Question)
    (eff : GenEffects) (topic difficulty_level : String)
    (question_count : Int) (question_type : String)
    (subject_area : Option String)
    (hv : question_count < 1 ∨ question_count > 20) :
    generate_questions store eff topic difficulty_level question_count
      question_type subject_area =
      ({ success := false
         error := some "question_count must be between 1 and 20"
         questions := [], count := none, message := none, source := none },
        store) :=
  generate_questions_invalid store eff topic difficulty_level question_count
    question_type subject_area hv

/-- Effects record used to instantiate witnesses: a model that returns one
parsed question, an injective id supply, a fixed timestamp. -/
def effW : GenEffects :=
  { model := GenModel.ok [⟨"What is 1/2 of 10?", "5", "Half of 10 is 5", "Use halving"⟩]
    mkId := fun n => String.mk (List.replicate (n + 1) 'a')
    now := "2024-01-02T00:00:00+00:00" }

lemma effW_mkId_inj : ∀ m n, effW.mkId m = effW.mkId n → m = n := by
  intro m n h
  have := congrArg (fun s => s.data.length) h
  simpa [effW] using this

/-- Witness for C10 at question_count = 0. -/
theorem generate_questions_count_validation_witness :
    generate_questions [seedQuestion] effW "Fractions" "beginner" 0 "mixed"
      none =
      ({ success := false
         error := some "question_count must be between 1 and 20"
         questions := [], count := none, message := none, source := none },
        [seedQuestion]) :=
  generate_questions_count_validation [seedQuestion] effW "Fractions"
    "beginner" 0 "mixed" none (Or.inl (by decide))

/-! ## Claim C1: how many records a generation call writes -/

/-- C1 counterexample.  The claim asserts that whenever fewer matching
questions exist than `question_count` and the model call succeeds, exactly
`question_count - existing` new records are written.  Against an empty store
with `question_count = 2`, a model call that succeeds but returns a single
parsed question leads to exactly one written record (the code stores
`generated_questions[:questions_needed]`, which caps at what the model
returned), while the claim demands two. -/
theorem generate_questions_write_count_cex :
    (generate_questions [] effW "Addition" "beginner" 2 "mixed" none).1.success
      = true ∧
    (generate_questions [] effW "Addition" "beginner" 2 "mixed" none).2.length
      = 1 := by
  constructor <;> decide

/-- C1 (amended).  With matching records computed as the code computes them —
over the first 50 scanned records, difficulty compared case-insensitively —
and an id supply that is injective and fresh for the store: if the matches
number at least `question_count`, the call writes no new records; if fewer
matches exist and the model output parses as a list, the call writes exactly
`min (question_count - matches, parsed count)` new records. -/
theorem generate_questions_write_count (store : List Question)
    (eff : GenEffects) (topic difficulty_level question_type : String)
    (subject_area : Option String) (question_count : Int)
    (h1 : 1 ≤ question_count) (h2 : question_count ≤ 20)
    (hinj : ∀ m n, eff.mkId m = eff.mkId n → m = n)
    (hfresh : ∀ n, ∀ r ∈ store, r.question_id ≠ eff.mkId n) :
    (((gqMatching store topic difficulty_level).length : Int) ≥ question_count →
      (generate_questions store eff topic difficulty_level question_count
        question_type subject_area).2 = store) ∧
    (∀ gen, eff.model = GenModel.ok gen →
      ((gqMatching store topic difficulty_level).length : Int) < question_count →
      (generate_questions store eff topic difficulty_level question_count
        question_type subject_area).2.length =
        store.length + min (question_count.toNat -
          (gqMatching store topic difficulty_level).length) gen.length) := by
  have hv : ¬(question_count < 1 ∨ question_count > 20) := by omega
  constructor
  · intro hge
    rw [generate_questions_enough store eff topic difficulty_level
      question_count question_type subject_area hv hge]
  · intro gen hm hlt
    simp only [generate_questions]
    rw [if_neg hv, if_neg (not_le.mpr hlt), hm]
    dsimp only
    have hq : question_count.toNat -
        (gqMatching store topic difficulty_level).length > 0 := by omega
    rw [if_pos hq]
    have hspec := storeLoop_spec eff (gqNormalizedTopic store topic)
      (difficultyMap difficulty_level) subject_area question_type hinj
      (gen.take (question_count.toNat -
        (gqMatching store topic difficulty_level).length)) store 0
      (fun n _ r hr => hfresh n r hr)
    rw [hspec.1, List.length_append, hspec.2, List.length_take]

/-- Witness for C1: against an empty store with `question_count = 1` and a
model returning one question, exactly `min (1 - 0, 1) = 1` record is
written. -/
theorem generate_questions_write_count_witness :
    (generate_questions [] effW "Fractions" "beginner" 1 "mixed" none).2.length
      = List.length ([] : List Question) + min ((1 : Int).toNat -
        (gqMatching [] "Fractions" "beginner").length)
        [(⟨"What is 1/2 of 10?", "5", "Half of 10 is 5", "Use halving"⟩ : GenQ)].length :=
  (generate_questions_write_count [] effW "Fractions" "beginner" "mixed" none 1
    (by decide) (by decide) effW_mkId_inj
    (fun _ r hr => absurd hr (List.not_mem_nil r))).2
    [⟨"What is 1/2 of 10?", "5", "Half of 10 is 5", "Use halving"⟩] rfl
    (by decide)

/-! ## Claim C4: the Fractions example scenario -/

/-- For a store that fits inside the 50-record scan window, the
`matching_questions` the code computes for topic "Fractions" at beginner
difficulty are exactly the store records whose topic contains "Fractions"
and whose difficulty lowercases to "easy". -/
lemma gqMatching_small_store (store : List Question)
    (hlen : store.length ≤ 50) :
    gqMatching store "Fractions" "beginner" =
      store.filter fun q => strContains q.topic "Fractions" &&
        strLower q.difficulty == "easy" := by
  rw [gqMatching, gqExisting, search_questions, List.take_of_length_le hlen,
    List.filter_filter]
  refine List.filter_congr (fun q _ => ?_)
  have h3 : strLower (difficultyMap "beginner") = "easy" := by decide
  rw [h3, if_pos (by decide : truthy (some "Fractions") = true),
    if_neg (by decide : ¬ truthy (none : Option String) = true)]
  cases h : strContains q.topic "Fractions" <;>
    cases h' : strLower q.difficulty == "easy" <;>
      simp [h, h', Option.getD_some]

/-- Two parsed model questions, for instantiations. -/
def genTwo : List GenQ :=
  [⟨"Compute 2/3 + 1/6", "5/6", "Use a common denominator of 6", "Draw bars"⟩,
   ⟨"Compute 3/4 - 1/2", "1/4", "Rewrite 1/2 as 2/4", "Draw circles"⟩]

/-- Effects whose model parses to genTwo. -/
def effC4 : GenEffects :=
  { model := GenModel.ok genTwo
    mkId := fun n => String.mk (List.replicate (n + 1) 'g')
    now := "2024-01-03T00:00:00+00:00" }

/-- The i-th Medium-difficulty "Fractions" record of `bigStore`. -/
def mediumRec (i : Nat) : Question :=
  { seedQuestion with question_id := "m" ++ toString i, difficulty := "Medium" }

/-- An Easy "Fractions" record with the given id. -/
def easyRec (id : String) : Question :=
  { seedQuestion with question_id := id }

/-- A store of 53 records: 50 Medium "Fractions" records followed by 3 Easy
"Fractions" records.  Its topic-matching Easy-difficulty records number
exactly 3, yet all of them lie beyond the 50-record scan window. -/
def bigStore : List Question :=
  (List.range 50).map mediumRec ++ [easyRec "e1", easyRec "e2", easyRec "e3"]

/-- C4 counterexample.  The claim quantifies over any store whose
topic-matching Easy records number exactly 3.  `bigStore` is such a store,
and the model returns (at least) 2 parsed questions, but because the scan
window (`Limit=50`, applied before the filter) misses the 3 Easy records,
the call generates 5 fresh questions, returns only the 2 the model parsed,
reports `count = 2`, and marks `source = "generated"`, not "mixed". -/
theorem generate_questions_fractions_cex :
    (bigStore.filter fun q => strContains q.topic "Fractions" &&
      strLower q.difficulty == "easy").length = 3 ∧
    (generate_questions bigStore effC4 "Fractions" "beginner" 5 "mixed"
      none).1.success = true ∧
    (generate_questions bigStore effC4 "Fractions" "beginner" 5 "mixed"
      none).1.source = some "generated" ∧
    (generate_questions bigStore effC4 "Fractions" "beginner" 5 "mixed"
      none).1.count = some 2 := by
  refine ⟨by decide, by decide, by decide, by decide⟩

/-- C4 (amended).  For a store that fits inside the 50-record scan window and
whose topic-matching Easy-difficulty records number exactly 3, a call
`generate_questions(topic="Fractions", question_count=5,
difficulty_level="beginner")` whose model output parses to at least 2
questions returns a success result whose questions list is the 3 existing
matching records followed by exactly 2 newly generated ones, with
`count = 5` and `source = "mixed"`. -/
theorem generate_questions_fractions_scenario (store : List Question)
    (eff : GenEffects) (gen : List GenQ)
    (hlen : store.length ≤ 50)
    (hmatch : (store.filter fun q => strContains q.topic "Fractions" &&
      strLower q.difficulty == "easy").length = 3)
    (hmodel : eff.model = GenModel.ok gen)
    (hgen : 2 ≤ gen.length) :
    ∃ newQs : List Question,
      newQs.length = 2 ∧
      (∀ q ∈ newQs, q.source = "AI Generated") ∧
      (generate_questions store eff "Fractions" "beginner" 5 "mixed"
        none).1.success = true ∧
      (generate_questions store eff "Fractions" "beginner" 5 "mixed"
        none).1.questions =
        (store.filter fun q => strContains q.topic "Fractions" &&
          strLower q.difficulty == "easy") ++ newQs ∧
      (generate_questions store eff "Fractions" "beginner" 5 "mixed"
        none).1.count = some 5 ∧
      (generate_questions store eff "Fractions" "beginner" 5 "mixed"
        none).1.source = some "mixed" := by
  have hM := gqMatching_small_store store hlen
  have hlen3 : (gqMatching store "Fractions" "beginner").length = 3 := by
    rw [hM]; exact hmatch
  have hv : ¬((5 : Int) < 1 ∨ (5 : Int) > 20) := by decide
  have hlt : ((gqMatching store "Fractions" "beginner").length : Int) < 5 := by
    rw [hlen3]; decide
  have hNLlen : (storeLoop eff (gqNormalizedTopic store "Fractions")
      (difficultyMap "beginner") none "mixed" store (gen.take 2) 0).2.length
      = 2 := by
    rw [storeLoop_length, List.length_take]
    exact Nat.min_eq_left hgen
  refine ⟨(storeLoop eff (gqNormalizedTopic store "Fractions")
    (difficultyMap "beginner") none "mixed" store (gen.take 2) 0).2,
    hNLlen, fun q hq => storeLoop_source _ _ _ _ _ _ _ _ q hq, ?_, ?_, ?_, ?_⟩
  · simp only [generate_questions]
    rw [if_neg hv, if_neg (not_le.mpr hlt), hmodel]
  · simp only [generate_questions]
    rw [if_neg hv, if_neg (not_le.mpr hlt), hmodel]
    dsimp only
    rw [hlen3, show (5 : Int).toNat - 3 = 2 from rfl,
      if_pos (show (2 : Nat) > 0 from by decide),
      if_neg (show ¬(2 : Nat) = 0 from by decide), hM]
  · simp only [generate_questions]
    rw [if_neg hv, if_neg (not_le.mpr hlt), hmodel]
    dsimp only
    rw [hlen3, show (5 : Int).toNat - 3 = 2 from rfl,
      if_pos (show (2 : Nat) > 0 from by decide)]
    rw [List.length_append, hlen3, hNLlen]
  · simp only [generate_questions]
    rw [if_neg hv, if_neg (not_le.mpr hlt), hmodel]
    dsimp only
    rw [hlen3, show (5 : Int).toNat - 3 = 2 from rfl,
      if_pos (show (2 : Nat) > 0 from by decide)]
    rw [hNLlen]
    decide

/-- A store of exactly the 3 Easy "Fractions" records. -/
def store3 : List Question := [easyRec "e1", easyRec "e2", easyRec "e3"]

/-- Witness for C4 at a 3-record store with a model returning 2 questions. -/
theorem generate_questions_fractions_scenario_witness :
    ∃ newQs : List Question,
      newQs.length = 2 ∧
      (∀ q ∈ newQs, q.source = "AI Generated") ∧
      (generate_questions store3 effC4 "Fractions" "beginner" 5 "mixed"
        none).1.success = true ∧
      (generate_questions store3 effC4 "Fractions" "beginner" 5 "mixed"
        none).1.questions =
        (store3.filter fun q => strContains q.topic "Fractions" &&
          strLower q.difficulty == "easy") ++ newQs ∧
      (generate_questions store3 effC4 "Fractions" "beginner" 5 "mixed"
        none).1.count = some 5 ∧
      (generate_questions store3 effC4 "Fractions" "beginner" 5 "mixed"
        none).1.source = some "mixed" :=
  generate_questions_fractions_scenario store3 effC4 genTwo (by decide)
    (by decide) rfl (by decide)

/-! ## Sessions (src/utils/dynamodb_client.py lines 244-294 and
src/tools/schedule_tools.py lines 160-212) -/

/-- A record of the `lumix-sessions` table.  `create_session` strips keys
whose value is `None` before writing; the `Option` fields embed that
presence/absence. -/
structure Session where
  session_id : String
  student_id : String
  date : String
  time : String
  duration : Int
  lesson_plan_id : Option String
  schedule_id : Option String
  notes : Option String
  created_by : String
  created_at : String
deriving Repr, DecidableEq

/-- Embeds `session_date.replace('-', '')` (dynamodb_client.py line 271):
replacing every occurrence of the single-character pattern "-" by the empty
string removes exactly the dash characters. -/
def removeDashes (s : String) : String := ⟨s.data.filter fun c => c ≠ '-'⟩

/-- The session id built at dynamodb_client.py lines 270-272:
`f"sess_{date_formatted}_{student_id}"`. -/
def mkSessionId (session_date student_id : String) : String :=
  "sess_" ++ removeDashes session_date ++ "_" ++ student_id

/-- Embeds `create_session` from src/utils/dynamodb_client.py (lines
244-294), imported by the schedule tool as `db_create_session`.  Builds the
item, strips `None` values (modelled by the `Option` fields), writes it with
`put_item`, and returns it together with the updated table. -/
def db_create_session (store : List Session)
    (student_id session_date time : String) (duration : Int)
    (lesson_plan_id schedule_id notes : Option String)
    (created_by : String) (now : String) : Session × List Session :=
  let item : Session :=
    { session_id := mkSessionId session_date student_id
      student_id := student_id
      date := session_date
      time := time
      duration := duration
      lesson_plan_id := lesson_plan_id
      schedule_id := schedule_id
      notes := notes
      created_by := created_by
      created_at := now }
  (item, putByKey Session.session_id store item)

/-- The dict returned by the `create_session` tool. -/
structure SessionToolResult where
  success : Bool
  session : Option Session
  message : Option String
  error : Option String
deriving Repr, DecidableEq

/-- Embeds the `create_session` tool (src/tools/schedule_tools.py lines
160-212): calls `db_create_session` with `created_by="manual"` and no
schedule id, and wraps the created item in a success dict.  In the embedding
no step can raise, so the except branch (lines 207-212) is unreachable. -/
def create_session (store : List Session)
    (student_id session_date time : String) (duration : Int)
    (lesson_plan_id notes : Option String) (now : String) :
    SessionToolResult × List Session :=
  let r := db_create_session store student_id session_date time duration
    lesson_plan_id none notes "manual" now
  ({ success := true
     session := some r.1
     message := some ("Created session " ++ r.1.session_id ++ " for " ++
       session_date ++ " at " ++ time)
     error := none }, r.2)

lemma putByKey_length_of_present {α : Type} (key : α → String)
    (store : List α) (item : α)
    (h : store.any (fun r => key r == key item) = true) :
    (putByKey key store item).length = store.length := by
  rw [putByKey, if_pos h, List.length_map]

/-! ## Claim C5: session id derivation and overwrite semantics -/

/-- C5.  Session id construction is a pure, deterministic function of the
session date and student id: two `create_session` calls with equal
`(session_date, student_id)` produce equal ids, namely
`sess_<date without dashes>_<studentId>` (which for a date `Y-M-D` with
dash-free components is `sess_<YMD>_<studentId>`), and a second creation with
identical inputs overwrites the stored record under that id rather than
adding a second record. -/
theorem create_session_id_spec :
    (∀ (store₁ store₂ : List Session) (sid d t₁ t₂ : String) (du₁ du₂ : Int)
      (lp₁ lp₂ n₁ n₂ : Option String) (now₁ now₂ : String),
      ((create_session store₁ sid d t₁ du₁ lp₁ n₁ now₁).1.session.map
        Session.session_id) =
        ((create_session store₂ sid d t₂ du₂ lp₂ n₂ now₂).1.session.map
          Session.session_id) ∧
      ((create_session store₁ sid d t₁ du₁ lp₁ n₁ now₁).1.session.map
        Session.session_id) = some (mkSessionId d sid)) ∧
    (∀ y mo dy sid : String, '-' ∉ y.data → '-' ∉ mo.data → '-' ∉ dy.data →
      mkSessionId (y ++ "-" ++ mo ++ "-" ++ dy) sid =
        "sess_" ++ y ++ mo ++ dy ++ "_" ++ sid) ∧
    (∀ (store : List Session) (sid d t : String) (du : Int)
      (lp n : Option String) (now t' : String) (du' : Int)
      (lp' n' : Option String) (now' : String),
      ((create_session ((create_session store sid d t du lp n now).2) sid d
        t' du' lp' n' now').2).length =
        ((create_session store sid d t du lp n now).2).length) := by
  refine ⟨fun _ _ _ _ _ _ _ _ _ _ _ _ _ _ => ⟨rfl, rfl⟩, ?_, ?_⟩
  · intro y mo dy sid hy hmo hdy
    refine congrArg String.mk ?_
    have hpred : ∀ (s : List Char), ('-' ∉ s) →
        s.filter (fun c => c ≠ '-') = s := by
      intro s hs
      refine List.filter_eq_self.mpr (fun a ha => ?_)
      simp only [ne_eq, decide_not, Bool.not_eq_true', decide_eq_false_iff_not,
        Decidable.not_not]
      intro h
      exact hs (h ▸ ha)
    have hdash : (String.data "-").filter (fun c => c ≠ '-') = [] := rfl
    simp only [mkSessionId, removeDashes, String.data_append,
      List.filter_append, hpred y.data hy, hpred mo.data hmo,
      hpred dy.data hdy, hdash]
    simp
  · intro store sid d t du lp n now t' du' lp' n' now'
    simp only [create_session, db_create_session]
    refine putByKey_length_of_present _ _ _ ?_
    exact any_key_putByKey Session.session_id store _

/-- Witness for C5 at a concrete well-formed date and student id. -/
theorem create_session_id_spec_witness :
    mkSessionId ("2024" ++ "-" ++ "03" ++ "-" ++ "05") "student42" =
      "sess_" ++ "2024" ++ "03" ++ "05" ++ "_" ++ "student42" :=
  create_session_id_spec.2.1 "2024" "03" "05" "student42" (by decide)
    (by decide) (by decide)

/-! ## JSON values and the Bedrock generation service
(src/services/bedrock_service.py) -/

/-- JSON values, as produced by `json.loads` on model output.  Numbers are
modelled as integers; the claims never inspect fractional values. -/
inductive Json where
  | null
  | bool (b : Bool)
  | num (n : Int)
  | str (s : String)
  | arr (elems : List Json)
  | obj (fields : List (String × Json))

/-- First-match key lookup in a JSON object (Python dicts hold each key
once). -/
def jsonLookup : List (String × Json) → String → Option Json
  | [], _ => none
  | (k, v) :: rest, key => if k = key then some v else jsonLookup rest key

/-- Outcome of the model interaction in `select_questions_with_ai`: either
the `invoke_nova_model` call or `json.loads` raised (`fail`, caught by the
except at lines 275-278), or the cleaned response parsed to a JSON value. -/
inductive SelectResp where
  | fail
  | parsed (j : Json)

/-- The `criteria` dict of `select_questions_with_ai`; only
`criteria.get("questionCount", 10)` influences the result (the topics,
difficulty and sections entries only feed the prompt). -/
structure SelectCriteria where
  questionCount : Option Nat

/-- The `selectedIndices` extraction at bedrock_service.py line 269:
`"selectedIndices" in parsed and isinstance(parsed["selectedIndices"], list)`.
A parsed value that is not a dict, lacks the key, or maps it to a non-list
falls through to the sequential fallback (a non-dict `parsed` either fails
the `in` test or raises, and the raise is caught by the same except that
produces the fallback). -/
def getSelectedIndices : Json → Option (List Json)
  | Json.obj fields =>
    match jsonLookup fields "selectedIndices" with
    | some (Json.arr l) => some l
    | _ => none
  | _ => none

/-- Embeds `select_questions_with_ai` (src/services/bedrock_service.py lines
203-278).  If no more questions are available than requested, all indices are
returned without a model call; otherwise the model's `selectedIndices` list is
truncated to the requested count, and any failure (raised call, unparseable
output, missing or non-list `selectedIndices`) falls back to the first
`min(count, len(questions))` indices in original order.  Indices returned by
the model are arbitrary JSON values, passed through as-is. -/
def select_questions_with_ai (questions : List Question)
    (criteria : SelectCriteria) (resp : SelectResp) : List Json :=
  let question_count := criteria.questionCount.getD 10
  if questions.length ≤ question_count then
    (List.range questions.length).map fun i => Json.num i
  else
    match resp with
    | SelectResp.fail =>
      (List.range (min question_count questions.length)).map fun i => Json.num i
    | SelectResp.parsed j =>
      match getSelectedIndices j with
      | some l => l.take question_count
      | none =>
        (List.range (min question_count questions.length)).map fun i =>
          Json.num i

/-! ## Claim C2: the question-selection contract -/

/-- C2.  For every list of N questions and criteria with target count K
(`criteria.get("questionCount", 10)`): whenever N ≤ K the result is the full
index list `[0, ..., N-1]` regardless of the model response (the model is not
consulted); and whenever the model response fails to parse as JSON or lacks a
`selectedIndices` list, the result is the first `min(K, N)` indices
`[0, ..., min(K, N)-1]` in original order. -/
theorem select_questions_contract (questions : List Question)
    (criteria : SelectCriteria) (resp : SelectResp) :
    (questions.length ≤ criteria.questionCount.getD 10 →
      select_questions_with_ai questions criteria resp =
        (List.range questions.length).map fun i => Json.num i) ∧
    ((resp = SelectResp.fail ∨
      ∃ j, resp = SelectResp.parsed j ∧ getSelectedIndices j = none) →
      select_questions_with_ai questions criteria resp =
        (List.range (min (criteria.questionCount.getD 10) questions.length)).map
          fun i => Json.num i) := by
  constructor
  · intro hle
    simp only [select_questions_with_ai.eq_def]
    rw [if_pos hle]
  · intro hfall
    simp only [select_questions_with_ai.eq_def]
    by_cases hle : questions.length ≤ criteria.questionCount.getD 10
    · simp only [if_pos hle]
      rw [Nat.min_eq_right hle]
    · simp only [if_neg hle]
      rcases hfall with h | ⟨j, hj, hnone⟩
      · rw [h]
      · rw [hj]
        simp only [hnone]

/-- Witness for C2: three questions, target count 2, a parsed response with
no `selectedIndices`, falling back to the first two indices. -/
theorem select_questions_contract_witness :
    select_questions_with_ai [seedQuestion, easyRec "e2", easyRec "e3"]
      ⟨some 2⟩ (SelectResp.parsed (Json.arr [])) =
      (List.range (min ((⟨some 2⟩ : SelectCriteria).questionCount.getD 10)
        [seedQuestion, easyRec "e2", easyRec "e3"].length)).map
        fun i => Json.num i :=
  (select_questions_contract [seedQuestion, easyRec "e2", easyRec "e3"]
    ⟨some 2⟩ (SelectResp.parsed (Json.arr []))).2
    (Or.inr ⟨Json.arr [], rfl, rfl⟩)

/-! ## grade_worksheet_with_ai (src/services/bedrock_service.py lines
281-343) and Claim C7 -/

/-- The explicit ungraded fallback value returned when grading fails
(bedrock_service.py lines 335-343). -/
def ungradedFallback : Json :=
  Json.obj
    [("total_questions", Json.num 0),
     ("correct_answers", Json.num 0),
     ("score", Json.str "0/0"),
     ("question_results", Json.arr []),
     ("weaknesses", Json.arr []),
     ("insights", Json.str
       "Unable to grade worksheet automatically. Please review manually.")]

/-- Embeds `grade_worksheet_with_ai` (lines 281-343).  The two string
arguments only feed the prompt.  `resp` is the outcome of
`invoke_nova_model` + `clean_json_response` + `json.loads`: `none` when the
call raised or the output did not parse (the except at lines 334-343), and
`some j` for a parsed value, which is returned as-is without validation. -/
def grade_worksheet_with_ai (_extracted_text _student_name : String)
    (resp : Option Json) : Json :=
  match resp with
  | none => ungradedFallback
  | some j => j

/-- Does a JSON value have the fixed grading shape the spec describes:
an object with numeric total/correct counts, a score string, list-valued
per-question results and weaknesses, and an insight string? -/
def isGradingShape (j : Json) : Bool :=
  match j with
  | Json.obj fields =>
    (match jsonLookup fields "total_questions" with
     | some (Json.num _) => true | _ => false) &&
    (match jsonLookup fields "correct_answers" with
     | some (Json.num _) => true | _ => false) &&
    (match jsonLookup fields "score" with
     | some (Json.str _) => true | _ => false) &&
    (match jsonLookup fields "question_results" with
     | some (Json.arr _) => true | _ => false) &&
    (match jsonLookup fields "weaknesses" with
     | some (Json.arr _) => true | _ => false) &&
    (match jsonLookup fields "insights" with
     | some (Json.str _) => true | _ => false)
  | _ => false

/-- C7 counterexample.  The claim asserts that for every input the function
returns a dictionary of the fixed grading shape.  When the model returns
text that parses as a JSON array (for instance `[]`), the function returns
that array unvalidated, which is not a dictionary of the grading shape. -/
theorem grade_worksheet_shape_cex :
    isGradingShape (grade_worksheet_with_ai "Q1: 3+4=7" "Alice"
      (some (Json.arr []))) = false := rfl

/-- C7 (amended).  `grade_worksheet_with_ai` never raises to its caller: on
any model-invocation or JSON-parse error it returns the explicit ungraded
fallback (zero counts, "0/0" score, empty result lists), which has the fixed
grading shape; on a successful parse it returns the parsed JSON value
unvalidated, which has the fixed shape only when the model complied. -/
theorem grade_worksheet_fallback_spec :
    (∀ t s, grade_worksheet_with_ai t s none = ungradedFallback) ∧
    isGradingShape ungradedFallback = true ∧
    (∀ t s j, grade_worksheet_with_ai t s (some j) = j) :=
  ⟨fun _ _ => rfl, rfl, fun _ _ _ => rfl⟩

/-! ## create_worksheet (src/tools/worksheet_tools.py lines 36-225) -/

/-- A record of the `lumix-worksheets` table, as built at worksheet_tools.py
lines 174-191. -/
structure WorksheetMeta where
  worksheet_id : String
  title : String
  subject : String
  grade_level : String
  topic : String
  topics : List String
  difficulty_level : String
  question_ids : List String
  question_count : Nat
  student_id : Option String
  file_url : String
  pdf_url : String
  format : String
  has_answer_key : Bool
  created_at : String
  created_by : String
deriving Repr, DecidableEq

/-- The dict returned by `create_worksheet`.  The failure returns carry only
`success`/`error`/`worksheet_id` (and `file_url` on the outer handler);
absent keys are `none`, and the absent `questions` key is the empty list.
`meta_question_count` is the `question_count` entry of the nested `metadata`
dict, which `create_lesson_with_worksheet` reads. -/
structure WsResult where
  success : Bool
  error : Option String
  worksheet_id : Option String
  file_url : Option String
  pdf_url : Option String
  preview_url : Option String
  worksheet : Option WorksheetMeta
  questions : List Question
  message : Option String
  meta_question_count : Option Nat
deriving Repr, DecidableEq

/-- External-call outcomes consumed by one run of `create_worksheet`: the
uuid hex for the worksheet id, whether the S3 `put_object`/presign pair
succeeds and the presigned URL it returns, whether the metadata `put_item`
succeeds, the timestamp, and the effects for the nested `generate_questions`
call.  The student lookup and the PDF rendering only affect the uploaded
bytes, not the returned dict or the stores, and are not modelled. -/
structure WsEffects where
  uuidHex : String
  s3Ok : Bool
  presignedUrl : String
  dbOk : Bool
  now : String
  genEff : GenEffects

/-- Embeds Python `if question_ids and len(question_ids) > 0:`. -/
def optListNonempty : Option (List String) → Bool
  | some l => l.length > 0
  | none => false

/-- The tail of `create_worksheet` (worksheet_tools.py lines 118-217), from
the emptiness check on the selected questions onward, factored out over the
selected questions and the (possibly generation-updated) questions table:
fail if no questions resulted (lines 118-123); upload the PDF, falling back
to a `local://` reference when S3 fails (lines 144-166); store the metadata,
continuing on failure (lines 168-197); return success (lines 199-217). -/
def cwFinish (wstore : List WorksheetMeta) (eff : WsEffects)
    (title subject grade_level topic difficulty_level : String)
    (include_answer_key : Bool) (format : String)
    (student_id : Option String) (worksheet_id : String)
    (questions : List Question) (qstore1 : List Question) :
    WsResult × List Question × List WorksheetMeta :=
  if questions.length = 0 then
    ({ success := false
       error := some "No questions available and generation failed"
       worksheet_id := none, file_url := none, pdf_url := none
       preview_url := none, worksheet := none, questions := []
       message := none, meta_question_count := none }, qstore1, wstore)
  else
    let file_url := if eff.s3Ok then eff.presignedUrl
      else "local://" ++ worksheet_id ++ ".pdf"
    let unique_topics := (questions.map Question.topic).eraseDups
    let worksheet_metadata : WorksheetMeta :=
      { worksheet_id := worksheet_id, title := title, subject := subject
        grade_level := grade_level, topic := topic
        topics := if unique_topics.isEmpty then [topic] else unique_topics
        difficulty_level := difficulty_level
        question_ids := questions.map Question.question_id
        question_count := questions.length
        student_id := student_id
        file_url := file_url, pdf_url := file_url, format := format
        has_answer_key := include_answer_key, created_at := eff.now
        created_by := "lumix-ai" }
    let wstore1 := if eff.dbOk then
        putByKey WorksheetMeta.worksheet_id wstore worksheet_metadata
      else wstore
    ({ success := true
       error := none
       worksheet_id := some worksheet_id
       file_url := some file_url, pdf_url := some file_url
       preview_url := some file_url
       worksheet := some worksheet_metadata
       questions := questions
       message := some ("Created worksheet '" ++ title ++ "' with " ++
         toString questions.length ++ " questions")
       meta_question_count := some questions.length }, qstore1, wstore1)

/-- Embeds `create_worksheet` (src/tools/worksheet_tools.py lines 36-225).
Returns the structured result, the updated questions table (the nested
generation call may write to it), and the updated worksheets table.

Step 1 (lines 77-116): fetch the given question ids via `get_item`, or
search for 8 questions and generate the shortfall via `generate_questions`;
then hand off to `cwFinish` for the remaining steps. -/
def create_worksheet (qstore : List Question) (wstore : List WorksheetMeta)
    (eff : WsEffects)
    (title subject grade_level topic difficulty_level : String)
    (question_ids : Option (List String)) (include_answer_key : Bool)
    (format : String) (student_id : Option String) :
    WsResult × List Question × List WorksheetMeta :=
  let worksheet_id := "worksheet_" ++ eff.uuidHex
  let fetched : List Question × List Question :=
    if optListNonempty question_ids then
      ((question_ids.getD []).filterMap fun qid =>
        qstore.find? fun r => r.question_id == qid, qstore)
    else
      let existing_questions :=
        search_questions qstore (some topic) (some difficulty_level) 8
      if existing_questions.length ≥ 8 then
        (existing_questions.take 8, qstore)
      else
        let needed : Int := 8 - (existing_questions.length : Int)
        let genResult := generate_questions qstore eff.genEff topic
          difficulty_level needed "mixed" (some subject)
        if genResult.1.success then
          (existing_questions ++ genResult.1.questions, genResult.2)
        else (existing_questions, genResult.2)
  cwFinish wstore eff title subject grade_level topic difficulty_level
    include_answer_key format student_id worksheet_id fetched.1 fetched.2

lemma cwFinish_worksheet_inv (wstore : List WorksheetMeta) (eff : WsEffects)
    (title subject grade_level topic difficulty_level : String)
    (include_answer_key : Bool) (format : String)
    (student_id : Option String) (worksheet_id : String)
    (questions qstore1 : List Question) :
    ∀ m, (cwFinish wstore eff title subject grade_level topic
        difficulty_level include_answer_key format student_id worksheet_id
        questions qstore1).1.worksheet = some m →
      m.question_count = m.question_ids.length := by
  intro m hm
  simp only [cwFinish] at hm
  split at hm
  · simp at hm
  · simp only [Option.some.injEq] at hm
    subst hm
    simp

lemma cwFinish_mem (wstore : List WorksheetMeta) (eff : WsEffects)
    (title subject grade_level topic difficulty_level : String)
    (include_answer_key : Bool) (format : String)
    (student_id : Option String) (worksheet_id : String)
    (questions qstore1 : List Question) :
    ∀ m, m ∈ (cwFinish wstore eff title subject grade_level topic
        difficulty_level include_answer_key format student_id worksheet_id
        questions qstore1).2.2 →
      m ∈ wstore ∨ m.question_count = m.question_ids.length := by
  intro m hm
  simp only [cwFinish] at hm
  split at hm
  · exact Or.inl hm
  · dsimp only at hm
    split at hm
    · rcases mem_putByKey _ _ _ _ hm with h | h
      · exact Or.inl h
      · subst h; right; simp
    · exact Or.inl hm

/-! ## Claim C9: worksheet metadata count invariant -/

/-- C9.  Every worksheet metadata record written by `create_worksheet`
satisfies `question_count = question_ids.length`: both the metadata embedded
in the returned dict and any record newly present in the worksheets table
(both derived from the same selected-questions list). -/
theorem worksheet_question_count_invariant (qstore : List Question)
    (wstore : List WorksheetMeta) (eff : WsEffects)
    (title subject grade_level topic difficulty_level : String)
    (question_ids : Option (List String)) (include_answer_key : Bool)
    (format : String) (student_id : Option String) :
    (∀ m, (create_worksheet qstore wstore eff title subject grade_level topic
        difficulty_level question_ids include_answer_key format
        student_id).1.worksheet = some m →
      m.question_count = m.question_ids.length) ∧
    (∀ m, m ∈ (create_worksheet qstore wstore eff title subject grade_level
        topic difficulty_level question_ids include_answer_key format
        student_id).2.2 →
      m ∈ wstore ∨ m.question_count = m.question_ids.length) := by
  constructor
  · intro m hm
    simp only [create_worksheet] at hm
    exact cwFinish_worksheet_inv _ _ _ _ _ _ _ _ _ _ _ _ _ m hm
  · intro m hm
    simp only [create_worksheet] at hm
    exact cwFinish_mem _ _ _ _ _ _ _ _ _ _ _ _ _ m hm

/-- Witness for C9: a concrete run returning a worksheet record. -/
theorem worksheet_question_count_invariant_witness :
    ∀ m, (create_worksheet [seedQuestion] [] ⟨"ab12", true,
        "https://s3.example/ws.pdf", true, "2024-01-05T00:00:00+00:00",
        effW⟩ "Fractions Practice" "Mathematics" "7" "Fractions" "beginner"
        (some ["q1"]) true "pdf" none).1.worksheet = some m →
      m.question_count = m.question_ids.length :=
  (worksheet_question_count_invariant [seedQuestion] [] ⟨"ab12", true,
    "https://s3.example/ws.pdf", true, "2024-01-05T00:00:00+00:00",
    effW⟩ "Fractions Practice" "Mathematics" "7" "Fractions" "beginner"
    (some ["q1"]) true "pdf" none).1

/-! ## create_lesson_plan (src/tools/lesson_tools.py lines 92-312) -/

/-- The student record fields `create_lesson_plan` reads off a successful
`get_student_by_id` lookup (the accuracy map and grade history feed only the
prompt). -/
structure StudentRec where
  name : String
  grade : String
deriving Repr, DecidableEq

/-- Renders an optional string the way a Python f-string renders a possibly
missing value: `None` prints as "None". -/
def optStr : Option String → String
  | none => "None"
  | some s => s

/-- `ai_lesson.get(key, default)` on a parsed JSON dict. -/
def jget (fields : List (String × Json)) (key : String) (dflt : Json) :
    Json :=
  (jsonLookup fields key).getD dflt

/-- Outcome of the model interaction in `create_lesson_plan`: `err` for any
exception reaching the outer handler at lines 307-312 (a raised
`bedrock_client.converse` call, or a parsed non-dict value on which the
subsequent `ai_lesson.get` attribute accesses raise); `parseFail` when
`json.loads` raised `JSONDecodeError`, making the code substitute the
fallback lesson dict of lines 250-264 built from the raw response text;
`parsed` for a parsed JSON dict. -/
inductive LpModel where
  | err (msg : String)
  | parseFail (raw : String)
  | parsed (fields : List (String × Json))

/-- External-call outcomes consumed by one run of `create_lesson_plan`. -/
structure LpEffects where
  model : LpModel
  lpUuidHex : String
  dbOk : Bool
  now : String
  student : Option StudentRec

/-- The fallback `ai_lesson` dict built at lesson_tools.py lines 250-264 when
the model response does not parse as JSON.  Python computes the slot minutes
as `int(duration*0.15)` etc. with binary floating point; for the nonnegative
integer durations in use this equals the integer division written here
(floating-point representation error could shift a slot by one minute for
some durations; no claim inspects these strings). -/
def lpFallbackLesson (topic : Option String)
    (learning_objectives : Option (List String)) (duration : Int)
    (raw : String) : List (String × Json) :=
  [("title", Json.str ("Lesson on " ++ optStr topic)),
   ("objectives",
     match learning_objectives with
     | some (o :: os) => Json.arr ((o :: os).map Json.str)
     | _ => Json.arr [Json.str ("Understand " ++ optStr topic)]),
   ("materials", Json.arr [Json.str "Whiteboard", Json.str "Worksheets"]),
   ("activities", Json.arr
     [Json.obj [("time", Json.str (toString (duration * 15 / 100) ++ " min")),
       ("name", Json.str "Warm-up"),
       ("description", Json.str "Review previous concepts")],
      Json.obj [("time", Json.str (toString (duration * 50 / 100) ++ " min")),
       ("name", Json.str "Main Instruction"),
       ("description", Json.str "Teach new concepts")],
      Json.obj [("time", Json.str (toString (duration * 20 / 100) ++ " min")),
       ("name", Json.str "Practice"),
       ("description", Json.str "Guided practice")],
      Json.obj [("time", Json.str (toString (duration * 15 / 100) ++ " min")),
       ("name", Json.str "Closure"),
       ("description", Json.str "Summary and homework")]]),
   ("assessment", Json.str "Formative assessment through questioning"),
   ("differentiation", Json.str "Adjust difficulty based on student needs"),
   ("notes", Json.str ⟨raw.data.take 500⟩)]

/-- A record of the `lumix-lesson-plans` table, as built at lesson_tools.py
lines 269-293.  Values taken from the parsed model dict are kept as JSON
(Python stores them unvalidated); `student_id`/`worksheet_id` keys are only
added when truthy. -/
structure LessonPlan where
  lesson_plan_id : String
  title : Json
  topic : Option String
  duration : Int
  grade_level : Option String
  content_source_type : String
  content_source_data : Option String
  objectives : Json
  materials : Json
  activities : Json
  assessment : Json
  differentiation : Json
  notes : Json
  created_at : String
  created_by : String
  student_id : Option String
  worksheet_id : Option String

/-- The dict returned by `create_lesson_plan` (the success return's `message`
string merely re-renders the title and is omitted). -/
structure LpResult where
  success : Bool
  error : Option String
  lesson_plan_id : Option String
  lesson_plan : Option LessonPlan

/-- The lesson-plan record built at lesson_tools.py lines 269-293 from the
(possibly fallback) `ai_lesson` dict. -/
def lpRecord (lesson_plan_id : String) (ai : List (String × Json))
    (topic : Option String) (duration : Int) (grade_level2 : Option String)
    (content_source_type : String) (content_source_data : Option String)
    (include_assessment include_materials : Bool)
    (student_id worksheet_id : Option String) (now : String) : LessonPlan :=
  { lesson_plan_id := lesson_plan_id
    title := jget ai "title" (Json.str ("Lesson on " ++ optStr topic))
    topic := topic
    duration := duration
    grade_level := grade_level2
    content_source_type := content_source_type
    content_source_data := content_source_data
    objectives := jget ai "objectives" (Json.arr [])
    materials := if include_materials then jget ai "materials" (Json.arr [])
      else Json.arr []
    activities := jget ai "activities" (Json.arr [])
    assessment := if include_assessment then jget ai "assessment" (Json.str "")
      else Json.str ""
    differentiation := jget ai "differentiation" (Json.str "")
    notes := jget ai "notes" (Json.str "")
    created_at := now
    created_by := "lumix-ai"
    student_id := if truthy student_id then student_id else none
    worksheet_id := if truthy worksheet_id then worksheet_id else none }

/-- The `topic` and (re-assigned) `grade_level` locals computed at
lesson_tools.py lines 137-183.  `topic` starts as `""`; in the
student-profile branch (entered when the source type says so or a truthy
student id is given) a found student supplies the grade and the topic
becomes "Mixed Topics" (or the source data when the type is "topic");
otherwise the branches on the source type apply.  A `None` source datum
flows through unchanged (rendered as "None" by later f-strings). -/
def lpTopicGrade (content_source_type : String)
    (content_source_data : Option String) (grade_level : Option String)
    (student_id : Option String) (student : Option StudentRec) :
    Option String × Option String :=
  if content_source_type = "student_profile" ∨ truthy student_id then
    match student with
    | some st =>
      (if content_source_type = "topic" then content_source_data
       else some "Mixed Topics", some st.grade)
    | none => (some "", grade_level)
  else if content_source_type = "topic" then
    (content_source_data, grade_level)
  else if content_source_type = "standards" then
    (some "Standards-Based Lesson", grade_level)
  else if content_source_type = "custom_prompt" then
    (some "Custom Lesson", grade_level)
  else (some "", grade_level)

/-- Embeds `create_lesson_plan` (src/tools/lesson_tools.py lines 92-312).
Returns the structured result and the updated lesson-plans table.  A raised
model call yields the outer-handler failure dict; an unparseable response is
replaced by the fallback lesson dict; the `put_item` is wrapped in its own
try/except (lines 295-298), so a failed store write is logged and the
function still returns success. -/
def create_lesson_plan (lstore : List LessonPlan) (eff : LpEffects)
    (content_source_type : String) (content_source_data : Option String)
    (duration : Int) (grade_level : Option String)
    (learning_objectives : Option (List String))
    (include_assessment include_materials : Bool)
    (student_id worksheet_id : Option String) :
    LpResult × List LessonPlan :=
  let lesson_plan_id := "lesson_" ++ eff.lpUuidHex
  let tg := lpTopicGrade content_source_type content_source_data grade_level
    student_id eff.student
  match eff.model with
  | LpModel.err msg =>
    ({ success := false, error := some msg, lesson_plan_id := none,
       lesson_plan := none }, lstore)
  | LpModel.parseFail raw =>
    let lesson_plan := lpRecord lesson_plan_id
      (lpFallbackLesson tg.1 learning_objectives duration raw) tg.1 duration
      tg.2 content_source_type content_source_data include_assessment
      include_materials student_id worksheet_id eff.now
    let lstore1 := if eff.dbOk then
        putByKey LessonPlan.lesson_plan_id lstore lesson_plan
      else lstore
    ({ success := true, error := none
       lesson_plan_id := some lesson_plan_id
       lesson_plan := some lesson_plan }, lstore1)
  | LpModel.parsed fields =>
    let lesson_plan := lpRecord lesson_plan_id fields tg.1 duration tg.2
      content_source_type content_source_data include_assessment
      include_materials student_id worksheet_id eff.now
    let lstore1 := if eff.dbOk then
        putByKey LessonPlan.lesson_plan_id lstore lesson_plan
      else lstore
    ({ success := true, error := none
       lesson_plan_id := some lesson_plan_id
       lesson_plan := some lesson_plan }, lstore1)

lemma create_lesson_plan_model_err (lstore : List LessonPlan)
    (eff : LpEffects) (content_source_type : String)
    (content_source_data : Option String) (duration : Int)
    (grade_level : Option String) (learning_objectives : Option (List String))
    (include_assessment include_materials : Bool)
    (student_id worksheet_id : Option String) (msg : String)
    (hm : eff.model = LpModel.err msg) :
    create_lesson_plan lstore eff content_source_type content_source_data
      duration grade_level learning_objectives include_assessment
      include_materials student_id worksheet_id =
      ({ success := false, error := some msg, lesson_plan_id := none,
         lesson_plan := none }, lstore) := by
  simp only [create_lesson_plan]
  rw [hm]

/-! ## Claim C3: the tool-layer error policy -/

lemma cwFinish_s3_fail (wstore : List WorksheetMeta) (eff : WsEffects)
    (title subject grade_level topic difficulty_level : String)
    (include_answer_key : Bool) (format : String)
    (student_id : Option String) (worksheet_id : String)
    (questions qstore1 : List Question)
    (hs3 : eff.s3Ok = false)
    (hsucc : (cwFinish wstore eff title subject grade_level topic
      difficulty_level include_answer_key format student_id worksheet_id
      questions qstore1).1.success = true) :
    (cwFinish wstore eff title subject grade_level topic difficulty_level
      include_answer_key format student_id worksheet_id questions
      qstore1).1.file_url = some ("local://" ++ worksheet_id ++ ".pdf") := by
  simp only [cwFinish] at hsucc ⊢
  split at hsucc
  · simp at hsucc
  · next h =>
    rw [if_neg h]
    simp [hs3]

/-- Worksheet effects with a failing S3 upload. -/
def envS3Down : WsEffects :=
  { uuidHex := "ab34cd56ef", s3Ok := false, presignedUrl := "https://unused",
    dbOk := true, now := "2024-01-06T00:00:00+00:00", genEff := effW }

/-- C3 counterexample.  The claim asserts that every failure of an external
call inside a tool operation yields a `success: false` result.  Here the S3
upload inside `create_worksheet` fails (`s3Ok = false`), yet the operation
returns `success: true` with no error and a `local://` file reference — the
code explicitly swallows the upload failure (worksheet_tools.py lines
163-166). -/
theorem tool_layer_error_policy_cex :
    envS3Down.s3Ok = false ∧
    (create_worksheet [seedQuestion] [] envS3Down "Fractions Practice"
      "Mathematics" "7" "Fractions" "beginner" (some ["q1"]) true "pdf"
      none).1.success = true ∧
    (create_worksheet [seedQuestion] [] envS3Down "Fractions Practice"
      "Mathematics" "7" "Fractions" "beginner" (some ["q1"]) true "pdf"
      none).1.error = none ∧
    (create_worksheet [seedQuestion] [] envS3Down "Fractions Practice"
      "Mathematics" "7" "Fractions" "beginner" (some ["q1"]) true "pdf"
      none).1.file_url = some "local://worksheet_ab34cd56ef.pdf" :=
  ⟨rfl, by decide, by decide, by decide⟩

/-- C3 (amended).  Failures of the model call inside `generate_questions`
are converted to `success: false` results with the error message, but two
store-side failures are deliberately swallowed: a failed S3 upload inside
`create_worksheet` leaves the result successful with a `local://` file
reference, and a failed lesson-plan `put_item` inside `create_lesson_plan`
leaves the result successful with the store unchanged. -/
theorem tool_layer_error_policy :
    (∀ (qstore : List Question) (wstore : List WorksheetMeta)
      (eff : WsEffects) (title subject grade_level topic difficulty_level :
      String) (question_ids : Option (List String))
      (include_answer_key : Bool) (format : String)
      (student_id : Option String),
      eff.s3Ok = false →
      (create_worksheet qstore wstore eff title subject grade_level topic
        difficulty_level question_ids include_answer_key format
        student_id).1.success = true →
      (create_worksheet qstore wstore eff title subject grade_level topic
        difficulty_level question_ids include_answer_key format
        student_id).1.file_url =
        some ("local://" ++ ("worksheet_" ++ eff.uuidHex) ++ ".pdf")) ∧
    (∀ (store : List Question) (eff : GenEffects)
      (topic difficulty_level question_type : String)
      (subject_area : Option String) (question_count : Int) (msg : String),
      1 ≤ question_count → question_count ≤ 20 →
      ((gqMatching store topic difficulty_level).length : Int) <
        question_count →
      eff.model = GenModel.err msg →
      (generate_questions store eff topic difficulty_level question_count
        question_type subject_area).1.success = false ∧
      (generate_questions store eff topic difficulty_level question_count
        question_type subject_area).1.error = some msg) ∧
    (∀ (lstore : List LessonPlan) (eff : LpEffects)
      (content_source_type : String) (content_source_data : Option String)
      (duration : Int) (grade_level : Option String)
      (learning_objectives : Option (List String))
      (include_assessment include_materials : Bool)
      (student_id worksheet_id : Option String)
      (fields : List (String × Json)),
      eff.model = LpModel.parsed fields → eff.dbOk = false →
      (create_lesson_plan lstore eff content_source_type
        content_source_data duration grade_level learning_objectives
        include_assessment include_materials student_id
        worksheet_id).1.success = true ∧
      (create_lesson_plan lstore eff content_source_type
        content_source_data duration grade_level learning_objectives
        include_assessment include_materials student_id
        worksheet_id).2 = lstore) := by
  refine ⟨?_, ?_, ?_⟩
  · intro qstore wstore eff title subject grade_level topic difficulty_level
      question_ids include_answer_key format student_id hs3 hsucc
    simp only [create_worksheet] at hsucc ⊢
    exact cwFinish_s3_fail _ _ _ _ _ _ _ _ _ _ _ _ _ hs3 hsucc
  · intro store eff topic difficulty_level question_type subject_area
      question_count msg h1 h2 hlt hm
    have h := generate_questions_model_err store eff topic difficulty_level
      question_count question_type subject_area msg (by omega) hlt hm
    rw [h]
    exact ⟨rfl, rfl⟩
  · intro lstore eff content_source_type content_source_data duration
      grade_level learning_objectives include_assessment include_materials
      student_id worksheet_id fields hm hdb
    constructor
    · simp only [create_lesson_plan]
      rw [hm]
    · simp only [create_lesson_plan]
      rw [hm]
      dsimp only
      simp [hdb]

/-- Generation effects whose model call raises. -/
def effErr : GenEffects :=
  { model := GenModel.err "Bedrock down"
    mkId := fun n => String.mk (List.replicate (n + 1) 'c')
    now := "2024-01-07T00:00:00+00:00" }

/-- Lesson-plan effects with a parsed model response but a failing
`put_item`. -/
def lpEffDbDown : LpEffects :=
  { model := LpModel.parsed [("title", Json.str "Fractions Lesson")]
    lpUuidHex := "cd78ef90", dbOk := false
    now := "2024-01-07T00:00:00+00:00", student := none }

/-- Witness for C3 at concrete inputs for each of the three conjuncts. -/
theorem tool_layer_error_policy_witness :
    (create_worksheet [seedQuestion] [] envS3Down "Fractions Practice"
      "Mathematics" "7" "Fractions" "beginner" (some ["q1"]) true "pdf"
      none).1.file_url =
      some ("local://" ++ ("worksheet_" ++ envS3Down.uuidHex) ++ ".pdf") ∧
    ((generate_questions [] effErr "Decimals" "beginner" 3 "mixed"
      none).1.success = false ∧
     (generate_questions [] effErr "Decimals" "beginner" 3 "mixed"
      none).1.error = some "Bedrock down") ∧
    ((create_lesson_plan [] lpEffDbDown "topic" (some "Fractions") 45
      (some "7") none true true none none).1.success = true ∧
     (create_lesson_plan [] lpEffDbDown "topic" (some "Fractions") 45
      (some "7") none true true none none).2 = []) :=
  ⟨tool_layer_error_policy.1 [seedQuestion] [] envS3Down "Fractions Practice"
    "Mathematics" "7" "Fractions" "beginner" (some ["q1"]) true "pdf" none
    rfl (by decide),
   tool_layer_error_policy.2.1 [] effErr "Decimals" "beginner" "mixed" none 3
    "Bedrock down" (by decide) (by decide) (by decide) rfl,
   tool_layer_error_policy.2.2 [] lpEffDbDown "topic" (some "Fractions") 45
    (some "7") none true true none none
    [("title", Json.str "Fractions Lesson")] rfl rfl⟩

/-! ## create_lesson_with_worksheet (src/tools/lesson_tools.py
lines 339-472) and Claim C8 -/

/-- The dict returned by `create_lesson_with_worksheet`.  On the
lesson-failure path the dict carries `worksheet_id` and `worksheet_url`; on
the worksheet-failure path both are `None`/absent.  The success return's
`package` and `message` entries re-bundle fields already present in the two
step results and are omitted; its `urls` entries appear as `worksheet_url`
and `lesson_plan_url`. -/
structure CombinedResult where
  success : Bool
  error : Option String
  lesson_plan_id : Option String
  worksheet_id : Option String
  worksheet_url : Option String
  lesson_plan_url : Option String

/-- Embeds `create_lesson_with_worksheet` (src/tools/lesson_tools.py lines
339-472): create the worksheet first (passing no question ids — the
`question_count` argument is accepted but never forwarded); on its failure
return with neither id; then create the lesson plan referencing the
worksheet; on its failure return `success: false` but keep the created
worksheet's id and file URL in the result. -/
def create_lesson_with_worksheet (qstore : List Question)
    (wstore : List WorksheetMeta) (lstore : List LessonPlan)
    (wsEff : WsEffects) (lpEff : LpEffects)
    (topic : String) (duration : Int) (grade_level subject : String)
    (student_id : Option String) (difficulty_level : String)
    (_question_count : Int) (content_source_type : String)
    (include_answer_key : Bool) :
    CombinedResult × List Question × List WorksheetMeta × List LessonPlan :=
  let worksheet_title := topic ++ " Practice Worksheet"
  let w := create_worksheet qstore wstore wsEff worksheet_title subject
    grade_level topic difficulty_level none include_answer_key "pdf"
    student_id
  let worksheet_result := w.1
  if worksheet_result.success = false then
    ({ success := false
       error := some ("Worksheet creation failed: " ++
         optStr worksheet_result.error)
       lesson_plan_id := none, worksheet_id := none
       worksheet_url := none, lesson_plan_url := none },
     w.2.1, w.2.2, lstore)
  else
    let worksheet_id := worksheet_result.worksheet_id
    let content_data := if content_source_type = "student_profile" then
        student_id
      else some topic
    let l := create_lesson_plan lstore lpEff content_source_type content_data
      duration (some grade_level)
      (some ["Master core concepts in " ++ topic,
        "Apply problem-solving strategies",
        "Build confidence through practice"])
      true true student_id worksheet_id
    let lesson_result := l.1
    if lesson_result.success = false then
      ({ success := false
         error := some ("Lesson plan creation failed: " ++
           optStr lesson_result.error)
         lesson_plan_id := none
         worksheet_id := worksheet_id
         worksheet_url := worksheet_result.file_url
         lesson_plan_url := none },
       w.2.1, w.2.2, l.2)
    else
      ({ success := true
         error := none
         lesson_plan_id := lesson_result.lesson_plan_id
         worksheet_id := worksheet_id
         worksheet_url := worksheet_result.file_url
         lesson_plan_url := some ("lesson-plans/" ++
           optStr lesson_result.lesson_plan_id) },
       w.2.1, w.2.2, l.2)

/-- C8.  For every invocation of `create_lesson_with_worksheet` in which the
worksheet step succeeds and the lesson-plan step fails (its model call
raises), the returned failure result still carries the created worksheet's
id and file URL, so the orphaned worksheet remains visible to the caller. -/
theorem composite_orphan_visibility (qstore : List Question)
    (wstore : List WorksheetMeta) (lstore : List LessonPlan)
    (wsEff : WsEffects) (lpEff : LpEffects)
    (topic : String) (duration : Int) (grade_level subject : String)
    (student_id : Option String) (difficulty_level : String)
    (question_count : Int) (content_source_type : String)
    (include_answer_key : Bool) (msg : String)
    (hw : (create_worksheet qstore wstore wsEff
      (topic ++ " Practice Worksheet") subject grade_level topic
      difficulty_level none include_answer_key "pdf"
      student_id).1.success = true)
    (hl : lpEff.model = LpModel.err msg) :
    (create_lesson_with_worksheet qstore wstore lstore wsEff lpEff topic
      duration grade_level subject student_id difficulty_level
      question_count content_source_type include_answer_key).1 =
      { success := false
        error := some ("Lesson plan creation failed: " ++ msg)
        lesson_plan_id := none
        worksheet_id := (create_worksheet qstore wstore wsEff
          (topic ++ " Practice Worksheet") subject grade_level topic
          difficulty_level none include_answer_key "pdf"
          student_id).1.worksheet_id
        worksheet_url := (create_worksheet qstore wstore wsEff
          (topic ++ " Practice Worksheet") subject grade_level topic
          difficulty_level none include_answer_key "pdf"
          student_id).1.file_url
        lesson_plan_url := none } := by
  simp only [create_lesson_with_worksheet]
  rw [hw, if_neg (by simp : ¬(true = false)),
    create_lesson_plan_model_err _ _ _ _ _ _ _ _ _ _ _ _ hl]
  dsimp only
  rw [if_pos rfl]
  rfl

/-- Eight stored Easy "Fractions" questions with distinct ids. -/
def eightStore : List Question :=
  (List.range 8).map fun i => { seedQuestion with
    question_id := "s" ++ toString i }

/-- Worksheet effects with everything succeeding. -/
def wsEffOk : WsEffects :=
  { uuidHex := "7f3a2b9c1d", s3Ok := true
    presignedUrl := "https://bucket.s3/worksheets/7f3a2b9c1d.pdf"
    dbOk := true, now := "2024-01-08T00:00:00+00:00", genEff := effW }

/-- Lesson-plan effects whose model call raises. -/
def lpEffErr : LpEffects :=
  { model := LpModel.err "Bedrock unavailable", lpUuidHex := "9e8d7c"
    dbOk := true, now := "2024-01-08T00:00:00+00:00", student := none }

/-- Witness for C8: a concrete run where the worksheet is created from eight
stored questions and the lesson-plan model call then raises. -/
theorem composite_orphan_visibility_witness :
    (create_lesson_with_worksheet eightStore [] [] wsEffOk lpEffErr
      "Fractions" 45 "7" "Mathematics" none "Easy" 8 "topic" true).1 =
      { success := false
        error := some ("Lesson plan creation failed: " ++
          "Bedrock unavailable")
        lesson_plan_id := none
        worksheet_id := (create_worksheet eightStore [] wsEffOk
          ("Fractions" ++ " Practice Worksheet") "Mathematics" "7"
          "Fractions" "Easy" none true "pdf" none).1.worksheet_id
        worksheet_url := (create_worksheet eightStore [] wsEffOk
          ("Fractions" ++ " Practice Worksheet") "Mathematics" "7"
          "Fractions" "Easy" none true "pdf" none).1.file_url
        lesson_plan_url := none } :=
  composite_orphan_visibility eightStore [] [] wsEffOk lpEffErr "Fractions"
    45 "7" "Mathematics" none "Easy" 8 "topic" true "Bedrock unavailable"
    (by decide) rfl

end Lumix
